import Mathlib

/-!
Verification of the query module of dhermes/gcloud-python
(src/ndb/src/google/cloud/ndb/query.py), a high-level wrapper for
datastore queries.

The module is shallowly embedded: Python's dynamically typed values are
modelled by the inductive type `Py`, Python exceptions by `NdbError`
(the spec's `InvalidArgument` names the code's `TypeError`, and the
spec's `NotSupportedError` names the code's `NotImplementedError`), and
fallible constructors/validators return `Except NdbError _`.  Python
dicts are modelled as insertion-ordered association lists whose key
comparison is Python equality (`pyEq`), under which `True == 1`.

The `model` module (`model.Key`, `model.Property`,
`model.Model._kind_map`) is not part of the sources; the definitions
that stand in for it are modelled from the spec and say so in their doc
comments.
-/

/-- Identifier part of a datastore key: an integer id or a string name. -/
inductive KeyId where
  | i (n : Int)
  | s (str : String)
deriving DecidableEq, Repr

/-- Modelled from the spec: `model.Key` lives in the `model` module, which is
not among the sources.  Per the spec, a key carries an app, a namespace and
(when complete) an id: an ancestor key "must be a *complete* key (has an id)
and its app/namespace must agree with any explicitly supplied
app/namespace".  The accessor methods `id()`, `app()`, `namespace()` read
these fields. -/
structure NdbKey where
  app : String
  nspace : Option String
  id : Option KeyId
deriving DecidableEq, Repr

/-- The closed set of filter-tree node variants of the module
(`FalseNode`, `ParameterNode`, `FilterNode`, `PostFilterNode`,
`ConjunctionNode`, `DisjunctionNode`).  In the sources all their
constructors are stubs; the shape recorded here follows the spec's data
model, with comparison values kept as opaque tokens. -/
inductive NodeV where
  | falseNode
  | parameterNode (name opsym paramKey : String)
  | filterNode (name opsym value : String)
  | postFilterNode (pred : String)
  | conjunctionNode (ops : List NodeV)
  | disjunctionNode (ops : List NodeV)

/-- A Python value, restricted to the kinds of values the query module's
validators inspect: `None`, booleans, integers, strings, bytes, `model.Key`
instances, `Parameter` instances (carrying their `_key`),
`ParameterizedFunction` instances (carrying their `func` name), `Node`
instances, `model.Property` descriptors (carrying their `_name`), lists,
tuples, and opaque other objects. -/
inductive Py where
  | none
  | bool (b : Bool)
  | int (n : Int)
  | str (s : String)
  | bytes (s : String)
  | key (k : NdbKey)
  | param (key : Py)
  | pfunc (func : String)
  | node (n : NodeV)
  | prop (name : String)
  | list (xs : List Py)
  | tuple (xs : List Py)
  | obj (tag : String)

mutual

/-- Structural equality of node values (the classes in the sources define
no `__eq__`, so object identity is approximated structurally; no claim
compares node instances). -/
def NodeV.beq : NodeV → NodeV → Bool
  | .falseNode, .falseNode => true
  | .parameterNode a b c, .parameterNode a2 b2 c2 => a == a2 && b == b2 && c == c2
  | .filterNode a b c, .filterNode a2 b2 c2 => a == a2 && b == b2 && c == c2
  | .postFilterNode p, .postFilterNode q => p == q
  | .conjunctionNode xs, .conjunctionNode ys => NodeV.beqList xs ys
  | .disjunctionNode xs, .disjunctionNode ys => NodeV.beqList xs ys
  | _, _ => false

/-- Elementwise `NodeV.beq` on operand lists. -/
def NodeV.beqList : List NodeV → List NodeV → Bool
  | [], [] => true
  | x :: xs, y :: ys => NodeV.beq x y && NodeV.beqList xs ys
  | _, _ => false

end

mutual

/-- Python equality (`==`) on the embedded values.  Python's `bool` is a
subclass of `int` with `True == 1` and `False == 0`; values of otherwise
different types compare unequal (in particular `str` and `bytes` never
compare equal in Python 3, and nothing equals `None` but `None`).
`Parameter.__eq__` compares keys with `==`; keys and property descriptors
come from the absent `model` module and compare by their modelled fields;
objects without an `__eq__` (nodes, functions, opaque objects) fall back to
identity, approximated structurally — no claim exercises that case. -/
def pyEq : Py → Py → Bool
  | .none, .none => true
  | .bool x, .bool y => x == y
  | .bool x, .int n => (if x then (1 : Int) else 0) == n
  | .int n, .bool x => n == (if x then (1 : Int) else 0)
  | .int m, .int n => m == n
  | .str s, .str t => s == t
  | .bytes s, .bytes t => s == t
  | .key k1, .key k2 => k1 == k2
  | .param p, .param q => pyEq p q
  | .pfunc f, .pfunc g => f == g
  | .node n, .node m => NodeV.beq n m
  | .prop a, .prop b => a == b
  | .list xs, .list ys => pyEqList xs ys
  | .tuple xs, .tuple ys => pyEqList xs ys
  | .obj a, .obj b => a == b
  | _, _ => false

/-- Elementwise Python `==` on list/tuple contents. -/
def pyEqList : List Py → List Py → Bool
  | [], [] => true
  | x :: xs, y :: ys => pyEq x y && pyEqList xs ys
  | _, _ => false

end

/-- Python truthiness (`bool(x)`) negated: `None`, `False`, zero, and empty
strings/bytes/containers are falsy; instances of the module's classes
define no `__bool__`/`__len__` and are truthy. -/
def pyFalsy : Py → Bool
  | .none => true
  | .bool b => !b
  | .int n => n == 0
  | .str s => s == ""
  | .bytes s => s == ""
  | .list xs => xs.isEmpty
  | .tuple xs => xs.isEmpty
  | _ => false

/-- Python's `x is None` identity test. -/
def isNone : Py → Bool
  | .none => true
  | _ => false

/-- A Python dict, as an insertion-ordered association list (no duplicate
keys up to `pyEq` arise from the operations below). -/
def PyDict := List (Py × Py)

/-- Dict lookup: the value stored at the first key equal (Python `==`) to
`k`, when any. -/
def dictFind (d : PyDict) (k : Py) : Option Py :=
  (List.find? (fun e => pyEq e.1 k) d).map (fun e => e.2)

/-- Python's `k in d`. -/
def dictContains (d : PyDict) (k : Py) : Bool :=
  (dictFind d k).isSome

/-- Python's `d[k] = v`: replaces the value at an existing equal key
(keeping the originally inserted key object and its position, as CPython
dicts do), else appends a new entry. -/
def dictSet : PyDict → Py → Py → PyDict
  | [], k, v => [(k, v)]
  | (k1, v1) :: t, k, v =>
      if pyEq k1 k then (k1, v) :: t else (k1, v1) :: dictSet t k v

/-- The exceptions the module raises.  `typeError` and `valueError` are
Python's builtins (the spec calls construction-time `TypeError`
`InvalidArgument`); `notImplementedError` is Python's builtin (the spec
calls it `NotSupportedError`); `badArgumentError` is
`_exceptions.BadArgumentError`; `invalidPropertyCheck` is the failure of
the spec-modelled property-registry check (the spec files it under
`InvalidArgument` too). -/
inductive NdbError where
  | typeError
  | valueError
  | notImplementedError
  | badArgumentError
  | invalidPropertyCheck
deriving DecidableEq, Repr

/-- `isinstance(key, (int, str, bytes))` — the check of
`Parameter.__init__`.  Python's `bool` is a subclass of `int`. -/
def isIntStrBytes : Py → Bool
  | .int _ => true
  | .bool _ => true
  | .str _ => true
  | .bytes _ => true
  | _ => false

/-- A constructed `Parameter` instance: its `_key` attribute. -/
structure Parameter where
  _key : Py

/-- `Parameter.__init__`: raises `TypeError` unless the key is an integer,
string or bytes; otherwise stores the key unchanged in `_key`. -/
def Parameter.init (key : Py) : Except NdbError Parameter :=
  if !(isIntStrBytes key) then .error .typeError
  else .ok ⟨key⟩

/-- The `Parameter.key` property: returns `_key`. -/
def Parameter.key (p : Parameter) : Py := p._key

/-- `Parameter.__eq__` applied to another `Parameter` (the only case the
claims quantify over; for a non-`Parameter` operand the method returns
`NotImplemented`): compares the keys with Python `==`. -/
def Parameter.eqOther (p other : Parameter) : Bool :=
  pyEq p._key other._key

/-- `ParameterizedThing.__ne__`: `not self == other`. -/
def Parameter.neOther (p other : Parameter) : Bool :=
  !(Parameter.eqOther p other)

/-- `Parameter.resolve(bindings, used)`: raises
`_exceptions.BadArgumentError` when the key is not in `bindings`;
otherwise reads `bindings[key]`, sets `used[key] = True`, and returns the
bound value.  The second component of the result is the `used` dict after
the call. -/
def Parameter.resolve (p : Parameter) (bindings used : PyDict) :
    Except NdbError Py × PyDict :=
  if !(dictContains bindings p._key) then
    (.error .badArgumentError, used)
  else
    (.ok ((dictFind bindings p._key).getD .none),
      dictSet used p._key (.bool true))

/-- Reads the ancestor key's `namespace()` as a Python value (`None` or a
string). -/
def NdbKey.namespacePy (k : NdbKey) : Py :=
  match k.nspace with
  | Option.none => .none
  | Option.some s => .str s

/-- `not ancestor.id()`: the incompleteness test of `_validate_ancestor`.
A missing id is `None` (falsy); integer `0` and the empty string are the
other falsy ids. -/
def keyIdFalsy : Option KeyId → Bool
  | Option.none => true
  | Option.some (.i n) => n == 0
  | Option.some (.s str) => str == ""

/-- `isinstance(x, ParameterizedThing)`: `Parameter` and
`ParameterizedFunction` instances. -/
def isParameterizedThing : Py → Bool
  | .param _ => true
  | .pfunc _ => true
  | _ => false

/-- `isinstance(x, Node)`. -/
def isNodePy : Py → Bool
  | .node _ => true
  | _ => false

/-- `Query._validate_ancestor(ancestor, app, namespace)`: `None` passes
through; a `ParameterizedThing` passes unless it is a
`ParameterizedFunction` whose `func` is not `"key"` (`TypeError`); any
other non-`Key` raises `TypeError`; a `Key` must have a truthy id
(`ValueError` otherwise) and must agree with an explicitly supplied `app`
and `namespace` (`TypeError` on mismatch). -/
def validateAncestor (ancestor app nspace : Py) : Except NdbError Py :=
  match ancestor with
  | .none => .ok .none
  | .param k => .ok (.param k)
  | .pfunc f =>
      if f != "key" then .error .typeError
      else .ok (.pfunc f)
  | .key k =>
      if keyIdFalsy k.id then .error .valueError
      else if !(isNone app) && !(pyEq app (.str k.app)) then .error .typeError
      else if !(isNone nspace) && !(pyEq nspace k.namespacePy) then .error .typeError
      else .ok (.key k)
  | _ => .error .typeError

/-- `Query._validate_filters(filters)`: must be `None` or a `Node`
instance; anything else raises `TypeError`; the accepted value is
returned unchanged. -/
def validateFilters (filters : Py) : Except NdbError Py :=
  if !(isNone filters) && !(isNodePy filters) then .error .typeError
  else .ok filters

/-- `Query._validate_orders(orders)`: any non-`None` value raises
`NotImplementedError`. -/
def validateOrders (orders : Py) : Except NdbError Py :=
  if !(isNone orders) then .error .notImplementedError
  else .ok orders

/-- `Query._validate_default_options(default_options)`: any non-`None`
value raises `NotImplementedError`. -/
def validateDefaultOptions (default_options : Py) : Except NdbError Py :=
  if !(isNone default_options) then .error .notImplementedError
  else .ok default_options

/-- `Query._validate_namespace(namespace, ancestor)`: when no namespace
was given and the ancestor is a concrete `Key`, the ancestor's namespace
is used; otherwise the given namespace is kept. -/
def validateNamespace (nspace ancestor : Py) : Py :=
  match nspace, ancestor with
  | .none, .key k => k.namespacePy
  | ns, _ => ns

/-- The kind registry `model.Model._kind_map`, as an association from kind
values to the property names registered for that kind.  Modelled from the
spec: the `model` module is not among the sources. -/
def KindMap := List (Py × List String)

/-- `model.Model._kind_map.get(kind)`. -/
def kindLookup (kindMap : KindMap) (kind : Py) : Option (List String) :=
  (List.find? (fun e => pyEq e.1 kind) kindMap).map (fun e => e.2)

/-- `Query._to_property_names` over the items of the list/tuple: a string
stays itself, a `model.Property` descriptor is normalized to its `_name`,
anything else raises `TypeError`. -/
def toPropertyNamesList : List Py → Except NdbError (List String)
  | [] => .ok []
  | .str s :: rest => do
      let t ← toPropertyNamesList rest
      pure (s :: t)
  | .prop nm :: rest => do
      let t ← toPropertyNamesList rest
      pure (nm :: t)
  | _ :: _ => .error .typeError

/-- `Query._to_property_names(properties)`: a non-list/non-tuple argument
is wrapped in a singleton list, then each item is normalized to a property
name. -/
def toPropertyNames (properties : Py) : Except NdbError (List String) :=
  match properties with
  | .list xs => toPropertyNamesList xs
  | .tuple xs => toPropertyNamesList xs
  | p => toPropertyNamesList [p]

/-- `Query._check_properties(fixed, kind)`.  The lookup in
`model.Model._kind_map` is in the sources; the check itself
(`modelclass._check_properties`) is modelled from the spec: "every name is
checked against the kind's registered property set when the kind is known
— unknown property names fail with `InvalidArgument`".  An unknown kind
checks nothing. -/
def checkProperties (kindMap : KindMap) (fixed : List String) (kind : Py) :
    Except NdbError Unit :=
  match kindLookup kindMap kind with
  | Option.none => .ok ()
  | Option.some props =>
      if fixed.all (fun nm => props.contains nm) then .ok ()
      else .error .invalidPropertyCheck

/-- `isinstance(x, (tuple, list))`. -/
def isListOrTuple : Py → Bool
  | .list _ => true
  | .tuple _ => true
  | _ => false

/-- `tuple(projection)` for an accepted (list or tuple) argument. -/
def toTuplePy : Py → Py
  | .list xs => .tuple xs
  | p => p

/-- `Query._validate_projection(projection, kind)`: `None` passes; an
empty (falsy) value raises `TypeError`; a non-list/non-tuple raises
`TypeError`; otherwise the items are normalized to property names, checked
against the kind's registry, and the argument is returned as a tuple. -/
def validateProjection (kindMap : KindMap) (projection kind : Py) :
    Except NdbError Py :=
  match projection with
  | .none => .ok .none
  | p =>
      if pyFalsy p then .error .typeError
      else if !(isListOrTuple p) then .error .typeError
      else do
        let fixed ← toPropertyNames p
        checkProperties kindMap fixed kind
        pure (toTuplePy p)

/-- `Query._validate_group_by(group_by, kind)`: textually the same checks
as `_validate_projection`. -/
def validateGroupBy (kindMap : KindMap) (group_by kind : Py) :
    Except NdbError Py :=
  match group_by with
  | .none => .ok .none
  | p =>
      if pyFalsy p then .error .typeError
      else if !(isListOrTuple p) then .error .typeError
      else do
        let fixed ← toPropertyNames p
        checkProperties kindMap fixed kind
        pure (toTuplePy p)

/-- A constructed `Query` instance: the attributes set by
`Query.__init__`. -/
structure Query where
  _kind : Py
  _ancestor : Py
  _filters : Py
  _orders : Py
  _app : Py
  _namespace : Py
  _default_options : Py
  _projection : Py
  _group_by : Py

/-- `Query.__init__`, in the source's order of assignments: ancestor,
filters, orders, app, namespace, default options, projection, group_by.
The kind registry is passed explicitly in place of the module-global
`model.Model._kind_map`. -/
def Query.init (kindMap : KindMap)
    (kind ancestor filters orders app nspace default_options projection group_by : Py) :
    Except NdbError Query := do
  let anc ← validateAncestor ancestor app nspace
  let flt ← validateFilters filters
  let ord ← validateOrders orders
  let ns := validateNamespace nspace ancestor
  let dopt ← validateDefaultOptions default_options
  let proj ← validateProjection kindMap projection kind
  let gby ← validateGroupBy kindMap group_by kind
  pure ⟨kind, anc, flt, ord, app, ns, dopt, proj, gby⟩

/-- Modelled from the spec: `ConjunctionNode.__init__` (aliased `AND`) is a
stub in the sources, so the combination semantics come from the spec's
words: "AND of two conjunctions flattens into one conjunction of the
concatenated operands (preserving left-to-right order); AND of any node
with `FalseNode` yields `FalseNode`"; a conjunction otherwise absorbs a
non-conjunction operand on either side. -/
def andCombine (a b : NodeV) : NodeV :=
  match a, b with
  | .falseNode, _ => .falseNode
  | _, .falseNode => .falseNode
  | .conjunctionNode xs, .conjunctionNode ys => .conjunctionNode (xs ++ ys)
  | .conjunctionNode xs, y => .conjunctionNode (xs ++ [y])
  | x, .conjunctionNode ys => .conjunctionNode (x :: ys)
  | x, y => .conjunctionNode [x, y]

/-- At an `ok` first component, `>>=` on `Except` continues with the bound
value. -/
theorem exceptBindOk {ε α β : Type} {x : Except ε α} {f : α → Except ε β}
    {b : β} (h : x >>= f = Except.ok b) :
    ∃ a, x = Except.ok a ∧ f a = Except.ok b := by
  cases x with
  | error e => simp [Bind.bind, Except.bind] at h
  | ok a => exact ⟨a, rfl, by simpa [Bind.bind, Except.bind] using h⟩

/-- An `error` first component short-circuits `>>=` on `Except`. -/
theorem exceptBindErr {ε α β : Type} {x : Except ε α} (f : α → Except ε β)
    {e : ε} (h : x = Except.error e) : (x >>= f) = Except.error e := by
  subst h; rfl

/-- An `ok` first component reduces `>>=` on `Except` to the
continuation. -/
theorem exceptBindStep {ε α β : Type} {x : Except ε α} (f : α → Except ε β)
    {a : α} (h : x = Except.ok a) : (x >>= f) = f a := by
  subst h; rfl

/-- C1: `Parameter.resolve(bindings, used)` raises `BadArgumentError` iff
the parameter's key is not a key of `bindings`; when the key is bound to a
value `v`, `resolve` returns exactly `v` (no coercion) and the `used` dict
with the key set to `True`. -/
theorem resolve_contract (p : Parameter) (bindings used : PyDict) :
    ((p.resolve bindings used).1 = Except.error .badArgumentError ↔
      dictContains bindings p._key = false) ∧
    (∀ v, dictFind bindings p._key = Option.some v →
      p.resolve bindings used =
        (Except.ok v, dictSet used p._key (Py.bool true))) := by
  refine ⟨?_, ?_⟩
  · cases h : dictContains bindings p._key with
    | false => simp [Parameter.resolve, h]
    | true => simp [Parameter.resolve, h]
  · intro v hv
    have hc : dictContains bindings p._key = true := by
      simp [dictContains, hv]
    simp [Parameter.resolve, hc, hv]

/-- Witness for C1 at the spec's own scenario:
`Parameter("limit").resolve({"limit": 5}, {})` returns `5` and marks
`used["limit"] = True`. -/
theorem resolve_contract_witness :
    Parameter.resolve ⟨Py.str "limit"⟩ [(Py.str "limit", Py.int 5)] [] =
      (Except.ok (Py.int 5), [(Py.str "limit", Py.bool true)]) :=
  (resolve_contract ⟨Py.str "limit"⟩ [(Py.str "limit", Py.int 5)] []).2
    (Py.int 5) rfl

/-- C10: when the key is absent from `bindings`, `Parameter.resolve`
raises `BadArgumentError` and leaves the `used` dict completely
unchanged. -/
theorem resolve_failure_leaves_used (p : Parameter) (bindings used : PyDict)
    (h : dictContains bindings p._key = false) :
    (p.resolve bindings used).2 = used ∧
    (p.resolve bindings used).1 = Except.error .badArgumentError := by
  simp [Parameter.resolve, h]

/-- Witness for C10: resolving `Parameter("limit")` against empty bindings
leaves a non-trivial `used` dict untouched. -/
theorem resolve_failure_leaves_used_witness :
    (Parameter.resolve ⟨Py.str "limit"⟩ [] [(Py.int 7, Py.bool false)]).2 =
      [(Py.int 7, Py.bool false)] ∧
    (Parameter.resolve ⟨Py.str "limit"⟩ [] [(Py.int 7, Py.bool false)]).1 =
      Except.error .badArgumentError :=
  resolve_failure_leaves_used ⟨Py.str "limit"⟩ [] [(Py.int 7, Py.bool false)] rfl

/-- C3: `Parameter(key)` succeeds exactly when the key is an integer
(booleans included, being Python ints), a string, or bytes; any other key
raises `TypeError` (the spec's `InvalidArgument`); on success the `key`
property returns the argument unchanged. -/
theorem parameter_init_contract (k : Py) :
    ((∃ p, Parameter.init k = Except.ok p) ↔ isIntStrBytes k = true) ∧
    (isIntStrBytes k = false → Parameter.init k = Except.error .typeError) ∧
    (∀ p, Parameter.init k = Except.ok p → p.key = k) := by
  refine ⟨?_, ?_, ?_⟩
  · cases h : isIntStrBytes k with
    | false => simp [Parameter.init, h]
    | true => exact ⟨fun _ => rfl, fun _ => ⟨⟨k⟩, by simp [Parameter.init, h]⟩⟩
  · intro h
    simp [Parameter.init, h]
  · intro p hp
    cases h : isIntStrBytes k with
    | false => simp [Parameter.init, h] at hp
    | true =>
        simp [Parameter.init, h] at hp
        rw [← hp]
        rfl

/-- Witness for C3: a string key is accepted and kept; a list key is
rejected with `TypeError`. -/
theorem parameter_init_contract_witness :
    Parameter.key ⟨Py.str "xyz"⟩ = Py.str "xyz" ∧
    Parameter.init (Py.list []) = Except.error .typeError :=
  ⟨(parameter_init_contract (Py.str "xyz")).2.2 ⟨Py.str "xyz"⟩ rfl,
   (parameter_init_contract (Py.list [])).2.1 rfl⟩

/-- C4: for parameters built from valid keys, `==` compares exactly the
keys (Python equality) and `!=` is its negation. -/
theorem parameter_eq_by_key (k1 k2 : Py) (p q : Parameter)
    (h1 : Parameter.init k1 = Except.ok p)
    (h2 : Parameter.init k2 = Except.ok q) :
    (Parameter.eqOther p q = pyEq k1 k2) ∧
    (Parameter.neOther p q = !(Parameter.eqOther p q)) := by
  have e1 : p = ⟨k1⟩ := by
    cases h : isIntStrBytes k1 with
    | false => simp [Parameter.init, h] at h1
    | true => simp [Parameter.init, h] at h1; exact h1.symm
  have e2 : q = ⟨k2⟩ := by
    cases h : isIntStrBytes k2 with
    | false => simp [Parameter.init, h] at h2
    | true => simp [Parameter.init, h] at h2; exact h2.symm
  subst e1; subst e2
  exact ⟨rfl, rfl⟩

/-- Witness for C4: `Parameter("a") == Parameter("a")` and
`Parameter("a") != Parameter("b")`. -/
theorem parameter_eq_by_key_witness :
    Parameter.eqOther ⟨Py.str "a"⟩ ⟨Py.str "a"⟩ = true ∧
    Parameter.neOther ⟨Py.str "a"⟩ ⟨Py.str "b"⟩ = true := by
  constructor
  · rw [(parameter_eq_by_key (Py.str "a") (Py.str "a") ⟨Py.str "a"⟩
      ⟨Py.str "a"⟩ rfl rfl).1]
    rfl
  · rw [(parameter_eq_by_key (Py.str "a") (Py.str "b") ⟨Py.str "a"⟩
      ⟨Py.str "b"⟩ rfl rfl).2]
    rfl

/-- C9: AND with `FalseNode` (on either side) yields `FalseNode`, and AND
of two conjunctions flattens into one conjunction of the concatenated
operands, left to right. -/
theorem andCombine_false_and_flatten :
    (∀ n, andCombine n .falseNode = .falseNode) ∧
    (∀ n, andCombine .falseNode n = .falseNode) ∧
    (∀ xs ys, andCombine (.conjunctionNode xs) (.conjunctionNode ys) =
      .conjunctionNode (xs ++ ys)) := by
  refine ⟨?_, ?_, ?_⟩
  · intro n; cases n <;> rfl
  · intro n; cases n <;> rfl
  · intro xs ys; rfl

/-- `isNone` detects exactly the `None` value. -/
theorem isNone_true {p : Py} (h : isNone p = true) : p = Py.none := by
  cases p <;> simp [isNone] at h ⊢

/-- A failed conjunction of negations means one of the operands held. -/
theorem guard_false_cases (x y : Bool) (h : (!x && !y) = false) :
    x = true ∨ y = true := by
  cases x <;> cases y <;> simp_all

/-- An accepted `filters` argument is `None` or a `Node` and is returned
unchanged by `_validate_filters`. -/
theorem validateFilters_ok {filters f : Py}
    (h : validateFilters filters = Except.ok f) :
    f = filters ∧ (isNone filters = true ∨ isNodePy filters = true) := by
  unfold validateFilters at h
  cases hc : (!(isNone filters) && !(isNodePy filters)) with
  | true => simp [hc] at h
  | false =>
      simp [hc] at h
      exact ⟨h.symm, guard_false_cases _ _ hc⟩

/-- An accepted `orders` argument is `None` (and is returned as such). -/
theorem validateOrders_ok {orders o : Py}
    (h : validateOrders orders = Except.ok o) :
    orders = Py.none ∧ o = Py.none := by
  unfold validateOrders at h
  cases hn : isNone orders with
  | false => simp [hn] at h
  | true =>
      have := isNone_true hn
      subst this
      simp [hn] at h
      exact ⟨rfl, h.symm⟩

/-- An accepted `default_options` argument is `None`. -/
theorem validateDefaultOptions_ok {dopts o : Py}
    (h : validateDefaultOptions dopts = Except.ok o) :
    dopts = Py.none ∧ o = Py.none := by
  unfold validateDefaultOptions at h
  cases hn : isNone dopts with
  | false => simp [hn] at h
  | true =>
      have := isNone_true hn
      subst this
      simp [hn] at h
      exact ⟨rfl, h.symm⟩

/-- An accepted concrete-key ancestor has a truthy id and agrees with the
explicitly supplied app and namespace, and is returned unchanged. -/
theorem validateAncestor_key_ok {k : NdbKey} {app nspace a : Py}
    (h : validateAncestor (Py.key k) app nspace = Except.ok a) :
    keyIdFalsy k.id = false ∧
    (isNone app = true ∨ pyEq app (Py.str k.app) = true) ∧
    (isNone nspace = true ∨ pyEq nspace k.namespacePy = true) ∧
    a = Py.key k := by
  unfold validateAncestor at h
  cases h1 : keyIdFalsy k.id with
  | true => simp [h1] at h
  | false =>
      cases h2 : (!(isNone app) && !(pyEq app (Py.str k.app))) with
      | true => simp [h1, h2] at h
      | false =>
          cases h3 : (!(isNone nspace) && !(pyEq nspace k.namespacePy)) with
          | true => simp [h1, h2, h3] at h
          | false =>
              simp [h1, h2, h3] at h
              exact ⟨rfl, guard_false_cases _ _ h2, guard_false_cases _ _ h3,
                h.symm⟩

/-- Unpacking a successful `Query.__init__`: every validator succeeded and
the attributes are exactly the validators' outputs, with the namespace
coming from `_validate_namespace`. -/
theorem query_init_ok_elim {kindMap : KindMap}
    {kind ancestor filters orders app nspace dopts proj gby : Py} {q : Query}
    (h : Query.init kindMap kind ancestor filters orders app nspace dopts proj gby =
      Except.ok q) :
    ∃ anc flt ord dopt pr gb,
      validateAncestor ancestor app nspace = Except.ok anc ∧
      validateFilters filters = Except.ok flt ∧
      validateOrders orders = Except.ok ord ∧
      validateDefaultOptions dopts = Except.ok dopt ∧
      validateProjection kindMap proj kind = Except.ok pr ∧
      validateGroupBy kindMap gby kind = Except.ok gb ∧
      q = ⟨kind, anc, flt, ord, app, validateNamespace nspace ancestor, dopt, pr, gb⟩ := by
  unfold Query.init at h
  obtain ⟨anc, ha, h⟩ := exceptBindOk h
  obtain ⟨flt, hf, h⟩ := exceptBindOk h
  obtain ⟨ord, ho, h⟩ := exceptBindOk h
  obtain ⟨dopt, hd, h⟩ := exceptBindOk h
  obtain ⟨pr, hp, h⟩ := exceptBindOk h
  obtain ⟨gb, hg, h⟩ := exceptBindOk h
  refine ⟨anc, flt, ord, dopt, pr, gb, ha, hf, ho, hd, hp, hg, ?_⟩
  simpa [pure, Except.pure] using h.symm

/-- C2: constructing a `Query` whose ancestor is a concrete key raises
`ValueError` when the key's id is falsy (incomplete key), raises
`TypeError` (the spec's `InvalidArgument`) when an explicitly supplied app
or namespace disagrees with the key's, and succeeds only when the id is
truthy and any explicitly supplied app and namespace agree with the
key's. -/
theorem query_ancestor_validation (kindMap : KindMap)
    (kind filters orders app nspace dopts proj gby : Py) (k : NdbKey) :
    (keyIdFalsy k.id = true →
      Query.init kindMap kind (Py.key k) filters orders app nspace dopts proj gby =
        Except.error .valueError) ∧
    (keyIdFalsy k.id = false → isNone app = false →
      pyEq app (Py.str k.app) = false →
      Query.init kindMap kind (Py.key k) filters orders app nspace dopts proj gby =
        Except.error .typeError) ∧
    (keyIdFalsy k.id = false →
      (isNone app = true ∨ pyEq app (Py.str k.app) = true) →
      isNone nspace = false → pyEq nspace k.namespacePy = false →
      Query.init kindMap kind (Py.key k) filters orders app nspace dopts proj gby =
        Except.error .typeError) ∧
    (∀ q, Query.init kindMap kind (Py.key k) filters orders app nspace dopts proj gby =
        Except.ok q →
      keyIdFalsy k.id = false ∧
      (isNone app = true ∨ pyEq app (Py.str k.app) = true) ∧
      (isNone nspace = true ∨ pyEq nspace k.namespacePy = true)) := by
  refine ⟨?_, ?_, ?_, ?_⟩
  · intro h1
    unfold Query.init
    exact exceptBindErr _ (by simp [validateAncestor, h1])
  · intro h1 h2 h3
    unfold Query.init
    exact exceptBindErr _ (by simp [validateAncestor, h1, h2, h3])
  · intro h1 h2 h3 h4
    unfold Query.init
    refine exceptBindErr _ ?_
    have happ : (!(isNone app) && !(pyEq app (Py.str k.app))) = false := by
      rcases h2 with hh | hh <;> simp [hh]
    simp [validateAncestor, h1, happ, h3, h4]
  · intro q h
    obtain ⟨anc, _, _, _, _, _, ha, _⟩ := query_init_ok_elim h
    obtain ⟨hid, happ, hns, _⟩ := validateAncestor_key_ok ha
    exact ⟨hid, happ, hns⟩

/-- Witness for C2: an incomplete ancestor key (no id) makes construction
raise `ValueError`; an explicit namespace disagreeing with a complete
ancestor key's namespace makes it raise `TypeError`. -/
theorem query_ancestor_validation_witness :
    Query.init [] Py.none (Py.key ⟨"app", Option.none, Option.none⟩)
      Py.none Py.none Py.none Py.none Py.none Py.none Py.none =
      Except.error .valueError ∧
    Query.init [] Py.none (Py.key ⟨"app", Option.some "ns", Option.some (KeyId.i 1)⟩)
      Py.none Py.none Py.none (Py.str "other") Py.none Py.none Py.none =
      Except.error .typeError :=
  ⟨(query_ancestor_validation [] Py.none Py.none Py.none Py.none Py.none
      Py.none Py.none Py.none ⟨"app", Option.none, Option.none⟩).1 rfl,
   (query_ancestor_validation [] Py.none Py.none Py.none Py.none
      (Py.str "other") Py.none Py.none Py.none
      ⟨"app", Option.some "ns", Option.some (KeyId.i 1)⟩).2.2.1 rfl
      (Or.inl rfl) rfl rfl⟩

/-- `_validate_namespace` keeps an explicitly given (non-`None`)
namespace. -/
theorem validateNamespace_of_not_none {ns : Py} (anc : Py)
    (h : isNone ns = false) : validateNamespace ns anc = ns := by
  cases ns <;> first
    | rfl
    | simp [isNone] at h

/-- C5: when the ancestor is a concrete key, a query constructed without
an explicit namespace gets the ancestor key's namespace, and a query
constructed with an explicit namespace keeps it as given. -/
theorem query_namespace_default (kindMap : KindMap)
    (kind filters orders app nspace dopts proj gby : Py) (k : NdbKey)
    (q : Query) :
    (nspace = Py.none →
      Query.init kindMap kind (Py.key k) filters orders app nspace dopts proj gby =
        Except.ok q →
      q._namespace = k.namespacePy) ∧
    (isNone nspace = false →
      Query.init kindMap kind (Py.key k) filters orders app nspace dopts proj gby =
        Except.ok q →
      q._namespace = nspace) := by
  constructor
  · intro hns h
    subst hns
    obtain ⟨anc, flt, ord, dopt, pr, gb, _, _, _, _, _, _, hq⟩ :=
      query_init_ok_elim h
    subst hq
    rfl
  · intro hns h
    obtain ⟨anc, flt, ord, dopt, pr, gb, _, _, _, _, _, _, hq⟩ :=
      query_init_ok_elim h
    subst hq
    exact validateNamespace_of_not_none _ hns

/-- Witness for C5: with ancestor key namespace `"ns"` and no explicit
namespace, the constructed query's namespace is `"ns"`. -/
theorem query_namespace_default_witness :
    (⟨Py.none, Py.key ⟨"app", Option.some "ns", Option.some (KeyId.i 1)⟩,
      Py.none, Py.none, Py.none, Py.str "ns", Py.none, Py.none, Py.none⟩ :
        Query)._namespace = Py.str "ns" :=
  (query_namespace_default [] Py.none Py.none Py.none Py.none Py.none
    Py.none Py.none Py.none ⟨"app", Option.some "ns", Option.some (KeyId.i 1)⟩
    ⟨Py.none, Py.key ⟨"app", Option.some "ns", Option.some (KeyId.i 1)⟩,
      Py.none, Py.none, Py.none, Py.str "ns", Py.none, Py.none, Py.none⟩).1
    rfl rfl

/-- C6: `Query` construction accepts a `filters` argument exactly when it
is `None` or a `Node` instance, storing it unchanged; any other value
fails with `TypeError` (the spec's `InvalidArgument`) as soon as the
(earlier-run) ancestor validation passes. -/
theorem query_filters_validation (kindMap : KindMap)
    (kind ancestor orders app nspace dopts proj gby filters : Py) :
    (∀ q, Query.init kindMap kind ancestor filters orders app nspace dopts proj gby =
        Except.ok q →
      (isNone filters = true ∨ isNodePy filters = true) ∧
      q._filters = filters) ∧
    (∀ a, validateAncestor ancestor app nspace = Except.ok a →
      isNone filters = false → isNodePy filters = false →
      Query.init kindMap kind ancestor filters orders app nspace dopts proj gby =
        Except.error .typeError) := by
  constructor
  · intro q h
    obtain ⟨anc, flt, ord, dopt, pr, gb, _, hf, _, _, _, _, hq⟩ :=
      query_init_ok_elim h
    obtain ⟨hff, hcase⟩ := validateFilters_ok hf
    subst hq
    exact ⟨hcase, hff⟩
  · intro a ha h1 h2
    unfold Query.init
    rw [exceptBindStep _ ha]
    exact exceptBindErr _ (by simp [validateFilters, h1, h2])

/-- Witness for C6: an integer `filters` argument is rejected with
`TypeError` even though every other argument is acceptable. -/
theorem query_filters_validation_witness :
    Query.init [] Py.none Py.none (Py.int 3) Py.none Py.none Py.none
      Py.none Py.none Py.none = Except.error .typeError :=
  (query_filters_validation [] Py.none Py.none Py.none Py.none Py.none
    Py.none Py.none Py.none (Py.int 3)).2 Py.none rfl rfl rfl

/-- C7: `Query` construction accepts `orders` and `default_options` only
as `None`; any non-`None` value raises `NotImplementedError` (the spec's
`NotSupportedError`) once the earlier validators pass. -/
theorem query_orders_options_validation (kindMap : KindMap)
    (kind ancestor filters app nspace dopts proj gby orders : Py) :
    (∀ a, validateAncestor ancestor app nspace = Except.ok a →
     ∀ f, validateFilters filters = Except.ok f →
      isNone orders = false →
      Query.init kindMap kind ancestor filters orders app nspace dopts proj gby =
        Except.error .notImplementedError) ∧
    (∀ a, validateAncestor ancestor app nspace = Except.ok a →
     ∀ f, validateFilters filters = Except.ok f →
      orders = Py.none → isNone dopts = false →
      Query.init kindMap kind ancestor filters orders app nspace dopts proj gby =
        Except.error .notImplementedError) ∧
    (∀ q, Query.init kindMap kind ancestor filters orders app nspace dopts proj gby =
        Except.ok q →
      orders = Py.none ∧ dopts = Py.none) := by
  refine ⟨?_, ?_, ?_⟩
  · intro a ha f hf h1
    unfold Query.init
    rw [exceptBindStep _ ha, exceptBindStep _ hf]
    exact exceptBindErr _ (by simp [validateOrders, h1])
  · intro a ha f hf ho h1
    subst ho
    unfold Query.init
    rw [exceptBindStep _ ha, exceptBindStep _ hf,
      exceptBindStep _ (show validateOrders Py.none = Except.ok Py.none from rfl)]
    exact exceptBindErr _ (by simp [validateDefaultOptions, h1])
  · intro q h
    obtain ⟨anc, flt, ord, dopt, pr, gb, _, _, ho, hd, _, _, _⟩ :=
      query_init_ok_elim h
    exact ⟨(validateOrders_ok ho).1, (validateDefaultOptions_ok hd).1⟩

/-- Witness for C7: a non-`None` `orders` and a non-`None`
`default_options` each abort construction with `NotImplementedError`. -/
theorem query_orders_options_validation_witness :
    Query.init [] Py.none Py.none Py.none (Py.obj "Order") Py.none Py.none
      Py.none Py.none Py.none = Except.error .notImplementedError ∧
    Query.init [] Py.none Py.none Py.none Py.none Py.none Py.none
      (Py.obj "Config") Py.none Py.none = Except.error .notImplementedError :=
  ⟨(query_orders_options_validation [] Py.none Py.none Py.none Py.none
      Py.none Py.none Py.none Py.none (Py.obj "Order")).1 Py.none rfl
      Py.none rfl rfl,
   (query_orders_options_validation [] Py.none Py.none Py.none Py.none
      Py.none (Py.obj "Config") Py.none Py.none Py.none).2.1 Py.none rfl
      Py.none rfl rfl rfl⟩

/-- On a non-empty list or tuple, `_validate_projection` reduces to
normalizing the property names, checking them, and returning the argument
as a tuple. -/
theorem validateProjection_listTuple (kindMap : KindMap) (kind p : Py)
    (xs : List Py) (hx : p = Py.list xs ∨ p = Py.tuple xs) (hne : xs ≠ []) :
    validateProjection kindMap p kind =
      (toPropertyNames p >>= fun fixed =>
        checkProperties kindMap fixed kind >>= fun _ => pure (Py.tuple xs)) := by
  rcases hx with h | h <;> subst h <;>
    cases xs with
    | nil => exact absurd rfl hne
    | cons a t => rfl

/-- C8: `_validate_projection` (and the textually identical
`_validate_group_by`) passes `None` through; rejects empty and
non-list/non-tuple arguments with `TypeError`; normalizes string items to
themselves and `Property` descriptors to their names, rejecting any other
item with `TypeError`; checks the names against the kind's registered
property set exactly when the kind is known to the registry, failing on an
unknown property name; and stores an accepted argument as a tuple of the
original items — the constructed query's projection and group_by are the
validators' outputs. -/
theorem projection_group_by_validation (kindMap : KindMap) (p kind : Py) :
    (p = Py.none → validateProjection kindMap p kind = Except.ok Py.none) ∧
    (isNone p = false → pyFalsy p = true →
      validateProjection kindMap p kind = Except.error .typeError) ∧
    (pyFalsy p = false → isListOrTuple p = false →
      validateProjection kindMap p kind = Except.error .typeError) ∧
    (∀ xs, p = Py.list xs ∨ p = Py.tuple xs → xs ≠ [] →
      (∀ fixed, toPropertyNames p = Except.ok fixed →
        (checkProperties kindMap fixed kind = Except.ok () →
          validateProjection kindMap p kind = Except.ok (Py.tuple xs)) ∧
        (checkProperties kindMap fixed kind = Except.error .invalidPropertyCheck →
          validateProjection kindMap p kind = Except.error .invalidPropertyCheck)) ∧
      (toPropertyNames p = Except.error .typeError →
        validateProjection kindMap p kind = Except.error .typeError)) ∧
    (∀ nm rest, toPropertyNamesList (Py.prop nm :: rest) =
      Except.map (fun t => nm :: t) (toPropertyNamesList rest)) ∧
    (∀ nm rest, toPropertyNamesList (Py.str nm :: rest) =
      Except.map (fun t => nm :: t) (toPropertyNamesList rest)) ∧
    (∀ props fixed, kindLookup kindMap kind = Option.some props →
      (checkProperties kindMap fixed kind = Except.ok () ↔
        fixed.all (fun nm => props.contains nm) = true)) ∧
    (kindLookup kindMap kind = Option.none →
      ∀ fixed, checkProperties kindMap fixed kind = Except.ok ()) ∧
    (validateGroupBy kindMap p kind = validateProjection kindMap p kind) ∧
    (∀ ancestor filters orders app nspace dopts gb q,
      Query.init kindMap kind ancestor filters orders app nspace dopts p gb =
        Except.ok q →
      validateProjection kindMap p kind = Except.ok q._projection ∧
      validateGroupBy kindMap gb kind = Except.ok q._group_by) ∧
    (∀ ancestor filters app nspace gb e a f,
      validateAncestor ancestor app nspace = Except.ok a →
      validateFilters filters = Except.ok f →
      validateProjection kindMap p kind = Except.error e →
      Query.init kindMap kind ancestor filters Py.none app nspace Py.none p gb =
        Except.error e) := by
  refine ⟨?_, ?_, ?_, ?_, ?_, ?_, ?_, ?_, ?_, ?_, ?_⟩
  · intro h; subst h; rfl
  · intro h1 h2
    cases p <;> simp_all [validateProjection, isNone, pyFalsy, isListOrTuple]
  · intro h1 h2
    cases p <;> simp_all [validateProjection, isNone, pyFalsy, isListOrTuple]
  · intro xs hx hne
    have heq := validateProjection_listTuple kindMap kind p xs hx hne
    refine ⟨?_, ?_⟩
    · intro fixed hfix
      refine ⟨?_, ?_⟩
      · intro hck
        simp [heq, hfix, hck, Bind.bind, Except.bind, pure, Except.pure]
      · intro hck
        simp [heq, hfix, hck, Bind.bind, Except.bind]
    · intro hfix
      simp [heq, hfix, Bind.bind, Except.bind]
  · intro nm rest
    cases h : toPropertyNamesList rest <;>
      simp [toPropertyNamesList, h, Except.map, Bind.bind, Except.bind,
        pure, Except.pure]
  · intro nm rest
    cases h : toPropertyNamesList rest <;>
      simp [toPropertyNamesList, h, Except.map, Bind.bind, Except.bind,
        pure, Except.pure]
  · intro props fixed hlk
    have hred : checkProperties kindMap fixed kind =
        if fixed.all (fun nm => props.contains nm) then Except.ok ()
        else Except.error .invalidPropertyCheck := by
      unfold checkProperties
      rw [hlk]
    rw [hred]
    split
    next hcond => exact iff_of_true rfl hcond
    next hcond =>
      constructor
      · intro hcontra
        exact absurd hcontra (by simp)
      · intro hcontra
        exact absurd hcontra hcond
  · intro hlk fixed
    simp [checkProperties, hlk]
  · cases p <;> rfl
  · intro ancestor filters orders app nspace dopts gb q h
    obtain ⟨anc, flt, ord, dopt, pr, gb2, _, _, _, _, hp, hg, hq⟩ :=
      query_init_ok_elim h
    subst hq
    exact ⟨hp, hg⟩
  · intro ancestor filters app nspace gb e a f ha hf hp
    unfold Query.init
    rw [exceptBindStep _ ha, exceptBindStep _ hf,
      exceptBindStep _ (show validateOrders Py.none = Except.ok Py.none from rfl),
      exceptBindStep _
        (show validateDefaultOptions Py.none = Except.ok Py.none from rfl)]
    exact exceptBindErr _ hp

/-- Witness for C8: with kind `"Pet"` registering property `"species"`, a
projection list holding the `species` property descriptor is normalized,
checked and stored as a tuple. -/
theorem projection_group_by_validation_witness :
    validateProjection [(Py.str "Pet", ["species"])]
      (Py.list [Py.prop "species"]) (Py.str "Pet") =
      Except.ok (Py.tuple [Py.prop "species"]) :=
  (((projection_group_by_validation [(Py.str "Pet", ["species"])]
      (Py.list [Py.prop "species"]) (Py.str "Pet")).2.2.2.1
    [Py.prop "species"] (Or.inl rfl) (List.cons_ne_nil _ _)).1
    ["species"] rfl).1 rfl
